import Mathlib

/-!
Verification of the Celestia solar-system / satellite-tracking application.

The definitions below are a shallow embedding of the JavaScript source:

* `orbits.js` — Kepler solver (`solveKepler`), planetary position engine
  (`getPlanetPosition`), lunar approximation (`getMoonPosition`);
* `propagation_worker.js` — batched satellite propagation
  (`calculatePositions`, `calculateSatellitePosition`, `calculateTrajectory`);
* `main.js` — the `worker.onmessage` handler (`POSITIONS_UPDATE` and
  `TRAJECTORY_DATA` branches), `setCameraTarget`, `updatePositions`, and the
  load-time truncation in `initTLEs`.

JavaScript numbers are modelled as real numbers; the JS remainder operator
`%` is modelled exactly (truncated division) by `jsRem`.  The external SGP4
capability (`satellite.propagate` and friends) is at the capability boundary
and is modelled by the observable outcome each record's propagation produces
(`PropagationOutcome`).
-/

namespace Celestia

/-- Cartesian triple, modelling a `THREE.Vector3` (x, y, z).  Componentwise
addition, negation and zero come from the product instances. -/
abbrev Vec3 : Type := ℝ × ℝ × ℝ

/-- Scalar multiplication, modelling `THREE.Vector3.multiplyScalar`. -/
def smul3 (k : ℝ) (v : Vec3) : Vec3 := (k * v.1, k * v.2.1, k * v.2.2)

/-- Standard gravitational parameter of the Sun, `1.32712440018e11` km³/s²
(`GM_SUN` in orbits.js). -/
def GM_SUN : ℝ := 132712440018

/-- One astronomical unit in kilometres (`config.AU`). -/
def AU : ℝ := 149597870

/-- Capacity of the satellite instance buffer (`config.MAX_SATELLITES`). -/
def MAX_SATELLITES : ℕ := 20000

/-- Scene scale used by the propagation worker (`SCALE = 1 / 6371`). -/
noncomputable def WORKER_SCALE : ℝ := 1 / 6371

/-- Chunk size used by the propagation worker (`BATCH_SIZE = 500`). -/
def BATCH_SIZE : ℕ := 500

/-- Combined factor `config.AU * config.SCALE` converting AU to scene units
(`scaleFactor` in `updatePositions` and `setCameraTarget`). -/
noncomputable def scaleFactor : ℝ := AU * (1 / 6371)

/-- Degree-to-radian conversion (`toRadians` in orbits.js). -/
noncomputable def toRadians (degrees : ℝ) : ℝ := degrees * Real.pi / 180

/-- Truncation of a real number toward zero, the rounding used by the
JavaScript remainder operator. -/
noncomputable def truncInt (r : ℝ) : ℤ := if 0 ≤ r then ⌊r⌋ else ⌈r⌉

/-- The JavaScript remainder operator `x % y`: the result has the sign of the
dividend and satisfies `x % y = x - y * trunc (x / y)`. -/
noncomputable def jsRem (x y : ℝ) : ℝ := x - y * (truncInt (x / y) : ℝ)

/-! ### Kepler solver (orbits.js, `solveKepler`) -/

/-- One Newton–Raphson correction for Kepler's equation:
`delta = (E - e*sin E - M) / (1 - e*cos E)`. -/
noncomputable def keplerDelta (M e E : ℝ) : ℝ :=
  (E - e * Real.sin E - M) / (1 - e * Real.cos E)

/-- The `while (Math.abs(delta) > tolerance && i < maxIterations)` loop of
`solveKepler`, with the remaining iteration budget as fuel.  The state is the
current estimate `E` and the last correction `delta` (initially `1`). -/
noncomputable def keplerLoop (M e : ℝ) : ℕ → ℝ → ℝ → ℝ
  | 0, E, _ => E
  | n + 1, E, delta =>
    if |delta| > 1e-8 then
      keplerLoop M e n (E - keplerDelta M e E) (keplerDelta M e E)
    else E

/-- Newton–Raphson solution of Kepler's equation `M = E - e*sin E`
(orbits.js `solveKepler`): initial guess `E = M`, initial `delta = 1`,
tolerance `1e-8`, at most `100` iterations, returning the current estimate
when the budget runs out. -/
noncomputable def solveKepler (M e : ℝ) : ℝ := keplerLoop M e 100 M 1

/-! ### Batch position pipeline (main.js, `POSITIONS_UPDATE` branch) -/

/-- A `POSITIONS_UPDATE` chunk-result message as consumed by the main-thread
handler.  `batchPositions i` is the payload entry `batchPositions[i]`; only
indices below `count` are read. -/
structure PositionsUpdate where
  startIndex : ℕ
  count : ℕ
  batchPositions : ℕ → Vec3

/-- The main thread's satellite position buffer: the translation stored in
each instance matrix slot (`satellites.instanceMatrix`) and the number of
valid leading entries (`satellites.count`, mirrored by `satelliteCount`). -/
structure SatelliteBuffer where
  matrices : ℕ → Vec3
  validCount : ℕ

theorem SatelliteBuffer.ext_of {s t : SatelliteBuffer}
    (hm : s.matrices = t.matrices) (hv : s.validCount = t.validCount) : s = t := by
  cases s; cases t; cases hm; cases hv; rfl

/-- The `POSITIONS_UPDATE` branch of `worker.onmessage` (main.js):
drop the chunk when `startIndex + count > MAX_SATELLITES`; otherwise write
`batchPositions[i] + earthPos` into slot `startIndex + i` for each
`i < count` and advance `satellites.count` to `startIndex + count` when that
exceeds the current value. -/
noncomputable def applyPositionsUpdate (earthPos : Vec3) (s : SatelliteBuffer)
    (m : PositionsUpdate) : SatelliteBuffer :=
  if m.startIndex + m.count > MAX_SATELLITES then s
  else
    { matrices := fun j =>
        if m.startIndex ≤ j ∧ j < m.startIndex + m.count then
          m.batchPositions (j - m.startIndex) + earthPos
        else s.matrices j
      validCount :=
        if m.startIndex + m.count > s.validCount then m.startIndex + m.count
        else s.validCount }

/-! ### Orbital position engine (orbits.js, `getPlanetPosition`) -/

/-- Keplerian orbital elements at the J2000 epoch, one record per planet in
the `orbitalElements` table of orbits.js: semi-major axis `a` (AU),
eccentricity `e`, inclination `I`, mean longitude `L`, longitude of
perihelion `peri` and longitude of the ascending node `node` (all degrees). -/
structure Elem where
  a : ℝ
  e : ℝ
  I : ℝ
  L : ℝ
  peri : ℝ
  node : ℝ

/-- The planet entries of the `orbitalElements` table in orbits.js.  The JS
table additionally holds a `sun` record (only a `GM` field) and a `moon`
record (geocentric fields); those records lack the planet fields used by
`getPlanetPosition`, evaluating it on them would manipulate `undefined`
(NaN), which has no counterpart in this real-number embedding, and no caller
reaches them (`updatePositions` and `setCameraTarget` branch on `sun` and
`moon` before consulting the table), so the lookup here models exactly the
nine planet entries. -/
noncomputable def planetElements : String → Option Elem
  | "mercury" => some ⟨0.387098, 0.205630, 7.00487, 252.25084, 77.45645, 48.33167⟩
  | "venus" => some ⟨0.723332, 0.006773, 3.39471, 181.97973, 131.53298, 76.68069⟩
  | "earth" => some ⟨1.000000, 0.016710, 0.00005, 100.46435, 102.94719, -11.26064⟩
  | "mars" => some ⟨1.523662, 0.093412, 1.85061, -4.553432, -23.943629, 49.57854⟩
  | "jupiter" => some ⟨5.203363, 0.048393, 1.30530, 34.396441, 14.75385, 100.55615⟩
  | "saturn" => some ⟨9.537070, 0.054151, 2.48446, 49.944322, 92.43194, 113.71504⟩
  | "uranus" => some ⟨19.191264, 0.047168, 0.76986, 313.23218, 170.96424, 74.22988⟩
  | "neptune" => some ⟨30.068963, 0.008586, 1.76917, -55.120029, 44.97135, 131.72169⟩
  | "pluto" => some ⟨39.481686, 0.248808, 17.14175, 238.92904, 224.06892, 110.30347⟩
  | _ => none

/-- Mean motion `n = Math.sqrt(GM_SUN / Math.pow(a * config.AU * 1000, 3))`
(orbits.js line 101), in the code's own units. -/
noncomputable def meanMotion (el : Elem) : ℝ :=
  Real.sqrt (GM_SUN / (el.a * AU * 1000) ^ 3)

/-- Mean anomaly at the J2000 epoch, `M0 = L - peri` in radians
(orbits.js line 102). -/
noncomputable def meanAnomaly0 (el : Elem) : ℝ :=
  toRadians el.L - toRadians el.peri

/-- Mean anomaly at the target time,
`M = (M0 + n * secondsSinceJ2000) % (2 * Math.PI)` (orbits.js line 103),
with the JS remainder modelled by `jsRem`.  `t` is seconds since J2000. -/
noncomputable def meanAnomalyAt (el : Elem) (t : ℝ) : ℝ :=
  jsRem (meanAnomaly0 el + meanMotion el * t) (2 * Real.pi)

/-- The two-argument arctangent `Math.atan2(y, x)`, modelled by the argument
of the complex number `x + y·i`. -/
noncomputable def jsAtan2 (y x : ℝ) : ℝ := Complex.arg ⟨x, y⟩

/-- Eccentric anomaly obtained from the Kepler solver,
`E = solveKepler(M, e)` (orbits.js line 106). -/
noncomputable def eccentricAnomalyAt (el : Elem) (t : ℝ) : ℝ :=
  solveKepler (meanAnomalyAt el t) el.e

/-- True anomaly
`nu = 2 * atan2(sqrt(1+e)*sin(E/2), sqrt(1-e)*cos(E/2))`
(orbits.js line 109). -/
noncomputable def trueAnomalyAt (el : Elem) (t : ℝ) : ℝ :=
  2 * jsAtan2 (Real.sqrt (1 + el.e) * Real.sin (eccentricAnomalyAt el t / 2))
    (Real.sqrt (1 - el.e) * Real.cos (eccentricAnomalyAt el t / 2))

/-- Heliocentric distance `r = a * (1 - e*cos E)` in AU
(orbits.js line 112). -/
noncomputable def radiusAt (el : Elem) (t : ℝ) : ℝ :=
  el.a * (1 - el.e * Real.cos (eccentricAnomalyAt el t))

/-- The found-elements branch of `getPlanetPosition` (orbits.js lines
88-138): rotate the orbital-plane position to ecliptic coordinates and
return `Vector3(X, Z, Y)`. -/
noncomputable def planetPositionFromElements (el : Elem) (t : ℝ) : Vec3 :=
  let I := toRadians el.I
  let node := toRadians el.node
  let w := toRadians el.peri - node
  let nu := trueAnomalyAt el t
  let r := radiusAt el t
  let X := r * (Real.cos node * (Real.cos w * Real.cos nu - Real.sin w * Real.sin nu) -
    Real.sin node * (Real.sin w * Real.cos nu + Real.cos w * Real.sin nu) * Real.cos I)
  let Y := r * (Real.sin node * (Real.cos w * Real.cos nu - Real.sin w * Real.sin nu) +
    Real.cos node * (Real.sin w * Real.cos nu + Real.cos w * Real.sin nu) * Real.cos I)
  let Z := r * (Real.sin I * (Real.sin w * Real.cos nu + Real.cos w * Real.sin nu))
  (X, Z, Y)

/-- Body of `getPlanetPosition` (orbits.js lines 71-139) together with the
console side channel: the first component records whether the
`console.error` in the missing-elements branch fired (invisible to the
caller), the second is the returned vector.  On a lookup miss the function
logs and returns `new THREE.Vector3()`, the zero vector; otherwise it
propagates the mean anomaly, solves Kepler's equation, forms the true
anomaly and radius, rotates to ecliptic coordinates and returns
`Vector3(X, Z, Y)`. -/
noncomputable def getPlanetPositionLogged (planetName : String) (t : ℝ) :
    Bool × Vec3 :=
  match planetElements planetName with
  | none => (true, ((0 : ℝ), (0 : ℝ), (0 : ℝ)))
  | some el => (false, planetPositionFromElements el t)

/-- Caller-visible value of `getPlanetPosition`: the returned `THREE.Vector3`
is the only channel the caller receives (the console log is a side effect
that does not reach the caller). -/
noncomputable def getPlanetPosition (planetName : String) (t : ℝ) : Vec3 :=
  (getPlanetPositionLogged planetName t).2

/-- The simplified lunar model `getMoonPosition` (orbits.js lines 149-174):
circular geocentric orbit in the ecliptic plane, mean motion from a
27.321661-day period, `L_geo = 0`, radius `384400 / config.AU` AU, returned
as `Vector3(x_geo, 0, y_geo)`. -/
noncomputable def getMoonPosition (t : ℝ) : Vec3 :=
  let meanMotionMoon := 2 * Real.pi / (27.321661 * 24 * 3600)
  let meanLongitudeMoon := jsRem (0 + meanMotionMoon * t) (2 * Real.pi)
  let r_geo_au := 384400 / AU
  (r_geo_au * Real.cos meanLongitudeMoon, 0, r_geo_au * Real.sin meanLongitudeMoon)

/-! ### Floating-origin manager (main.js, `setCameraTarget` and
`updatePositions`) -/

/-- The celestial bodies whose scene positions `updatePositions` maintains
and `setCameraTarget` can focus on. -/
inductive Body
  | sun
  | mercury
  | venus
  | earth
  | mars
  | jupiter
  | saturn
  | uranus
  | neptune
  | pluto
  | moon
deriving DecidableEq

/-- The lookup key each planet button/body uses in the orbital-elements
table. -/
def bodyName : Body → String
  | .sun => "sun"
  | .mercury => "mercury"
  | .venus => "venus"
  | .earth => "earth"
  | .mars => "mars"
  | .jupiter => "jupiter"
  | .saturn => "saturn"
  | .uranus => "uranus"
  | .neptune => "neptune"
  | .pluto => "pluto"
  | .moon => "moon"

/-- Absolute scene-scaled position of a body before the scene offset is
applied, as computed by `updatePositions` (main.js lines 482-527): the Sun
sits at the heliocentric origin and each planet at its heliocentric AU
position scaled by `scaleFactor`.  For the Moon, note that
`THREE.Vector3.multiplyScalar` mutates in place: line 501
(`earthAbsPos = earthPosAU.multiplyScalar(scaleFactor)`) scales
`earthPosAU` itself, so the `earthPosAU.clone().add(moonPosAU)` at line 511
starts from the already-scaled Earth vector and line 513 scales the sum
again — the Moon is placed at
`scaleFactor * (scaleFactor * earthAU + moonGeoAU)`, not at
`scaleFactor * (earthAU + moonGeoAU)`. -/
noncomputable def bodyAbsolutePosition (b : Body) (t : ℝ) : Vec3 :=
  match b with
  | .sun => ((0 : ℝ), (0 : ℝ), (0 : ℝ))
  | .moon => smul3 scaleFactor
      (smul3 scaleFactor (getPlanetPosition "earth" t) + getMoonPosition t)
  | b => smul3 scaleFactor (getPlanetPosition (bodyName b) t)

/-- Absolute (un-offset) world position of the new focus target as computed
inside `setCameraTarget` (main.js lines 891-906). -/
noncomputable def targetAbsolutePosition (b : Body) (t : ℝ) : Vec3 :=
  match b with
  | .sun => ((0 : ℝ), (0 : ℝ), (0 : ℝ))
  | .moon => smul3 scaleFactor (getPlanetPosition "earth" t + getMoonPosition t)
  | b => smul3 scaleFactor (getPlanetPosition (bodyName b) t)

/-- Display (scene) position of a body: absolute position plus the current
scene offset, as written by `updatePositions` (main.js lines 515-527). -/
noncomputable def displayPosition (b : Body) (t : ℝ) (sceneOffset : Vec3) : Vec3 :=
  bodyAbsolutePosition b t + sceneOffset

/-- Requests `setCameraTarget` can post to the propagation worker:
a `CALCULATE_TRAJECTORY` request (via `requestTrajectory`) and the
`CALCULATE_POSITIONS` request issued at the end of `updatePositions`. -/
inductive WorkerRequest
  | calculateTrajectory (satelliteIndex : ℤ)
  | calculatePositions
deriving DecidableEq

/-- The mutable state `setCameraTarget` touches: the global `sceneOffset`,
the selection indices, the number of loaded TLE records, the highlight and
selection marker positions, and the two trajectory polylines. -/
structure FocusState where
  sceneOffset : Vec3
  selectedIndex : ℤ
  highlightedIndex : ℤ
  tleCount : ℕ
  highlightedMarker : Option Vec3
  selectedMarker : Option Vec3
  currentTrajectory : Option (List Vec3)
  selectedTrajectory : Option (List Vec3)

/-- The state- and message-relevant effects of `setCameraTarget` (main.js
lines 876-967): compute the target's absolute position, set
`sceneOffset = -absolutePosition`, shift the markers by the offset delta,
clear both trajectory polylines, re-request the selected satellite's
trajectory when one is selected (guarded by `tleData[selectedIndex]`
existing), and run `updatePositions`, which posts a `CALCULATE_POSITIONS`
request whenever TLE records are loaded. -/
noncomputable def setCameraTarget (b : Body) (t : ℝ) (s : FocusState) :
    FocusState × List WorkerRequest :=
  let newOffset := -targetAbsolutePosition b t
  let deltaOffset := newOffset - s.sceneOffset
  let trajectoryRequests :=
    if s.selectedIndex ≠ -1 ∧ 0 ≤ s.selectedIndex ∧ s.selectedIndex < (s.tleCount : ℤ) then
      [WorkerRequest.calculateTrajectory s.selectedIndex]
    else []
  let positionRequests :=
    if 0 < s.tleCount then [WorkerRequest.calculatePositions] else []
  ({ s with
      sceneOffset := newOffset
      highlightedMarker := s.highlightedMarker.map (fun p => p + deltaOffset)
      selectedMarker := s.selectedMarker.map (fun p => p + deltaOffset)
      currentTrajectory := none
      selectedTrajectory := none },
    trajectoryRequests ++ positionRequests)

/-! ### Propagation worker (propagation_worker.js) -/

/-- Observable outcome of propagating one record through the external SGP4
capability inside `calculateSatellitePosition`: a position was produced
(`ok`), `satellite.propagate` returned an error string, it returned an
object without a `position` field, or the `try` block threw (for example on
malformed element lines in `twoline2satrec`). -/
inductive PropagationOutcome
  | ok (pos : Vec3)
  | errorString
  | noPosition
  | thrown

/-- Whether an outcome is one of the per-record failure cases. -/
def isPropagationFailure : PropagationOutcome → Bool
  | .ok _ => false
  | .errorString => true
  | .noPosition => true
  | .thrown => true

/-- The per-record computation of `calculateSatellitePosition`
(propagation_worker.js lines 65-97): on any failure return the sentinel
origin `{x: 0, y: 0, z: 0}`; on success scale by `SCALE` and flip the y/z
axes for three.js: `(x*SCALE, z*SCALE, -y*SCALE)`. -/
noncomputable def calculateSatellitePosition : PropagationOutcome → Vec3
  | .ok p => (p.1 * WORKER_SCALE, p.2.2 * WORKER_SCALE, -p.2.1 * WORKER_SCALE)
  | .errorString => ((0 : ℝ), (0 : ℝ), (0 : ℝ))
  | .noPosition => ((0 : ℝ), (0 : ℝ), (0 : ℝ))
  | .thrown => ((0 : ℝ), (0 : ℝ), (0 : ℝ))

/-- The chunk-result messages the worker posts for one record list.  Field
`count` is posted as `batchPositions.length`, exactly as in the source. -/
structure PositionsChunk where
  startIndex : ℕ
  count : ℕ
  positions : List Vec3

/-- The batching loop of `calculatePositions` (propagation_worker.js lines
36-62): starting at index `i`, process `min BATCH_SIZE remaining` records,
post one `POSITIONS_UPDATE` message for the batch, and continue at
`i + BATCH_SIZE`.  The remaining record list stands for `tleData.drop i`. -/
noncomputable def calculateBatches :
    List PropagationOutcome → ℕ → List PositionsChunk
  | [], _ => []
  | a :: l, i =>
    let batchPositions := ((a :: l).take BATCH_SIZE).map calculateSatellitePosition
    ⟨i, batchPositions.length, batchPositions⟩ ::
      calculateBatches ((a :: l).drop BATCH_SIZE) (i + BATCH_SIZE)
  termination_by l _ => l.length
  decreasing_by simp [BATCH_SIZE]; omega

/-- The full `calculatePositions` run of the worker on a submitted record
list: all chunk-result messages in emission order. -/
noncomputable def calculatePositions (tleData : List PropagationOutcome) :
    List PositionsChunk :=
  calculateBatches tleData 0

/-- The load-time truncation in `initTLEs` (main.js lines 377-383):
`tleData = tleData.slice(0, MAX_SATELLITES)` whenever more records were
parsed. -/
def truncateTleData {α : Type} (l : List α) : List α :=
  if l.length > MAX_SATELLITES then l.take MAX_SATELLITES else l

/-! ### Trajectory reply handling (main.js, `TRAJECTORY_DATA` branch) -/

/-- A `TRAJECTORY_DATA` reply message. -/
structure TrajectoryMessage where
  satelliteIndex : ℤ
  trajectoryPoints : List Vec3

/-- The state read and written by the `TRAJECTORY_DATA` branch of
`worker.onmessage`: the two selection indices (`-1` meaning none) and the
two trajectory polylines, each modelled by its point list. -/
structure TrajectoryState where
  selectedIndex : ℤ
  highlightedIndex : ℤ
  selectedTrajectory : Option (List Vec3)
  currentTrajectory : Option (List Vec3)

/-- The `TRAJECTORY_DATA` branch of `worker.onmessage` (main.js lines
208-244): shift the reply's points by Earth's position; when the reply's
index equals `selectedIndex`, replace the selected trajectory; otherwise,
when it equals `highlightedIndex`, replace the hover trajectory; otherwise
do nothing. -/
noncomputable def handleTrajectoryData (earthPos : Vec3) (s : TrajectoryState)
    (m : TrajectoryMessage) : TrajectoryState :=
  let shifted := m.trajectoryPoints.map (fun p => p + earthPos)
  if m.satelliteIndex = s.selectedIndex then
    { s with selectedTrajectory := some shifted }
  else if m.satelliteIndex = s.highlightedIndex then
    { s with currentTrajectory := some shifted }
  else s

/-! ### Helper lemmas -/

theorem jsRem_eq_sub_int_mul (x y : ℝ) : ∃ k : ℤ, jsRem x y = x - y * k :=
  ⟨truncInt (x / y), rfl⟩

theorem abs_sub_truncInt_lt_one (r : ℝ) : |r - (truncInt r : ℝ)| < 1 := by
  unfold truncInt
  split
  · rw [abs_of_nonneg (sub_nonneg.mpr (Int.floor_le r))]
    have h := Int.lt_floor_add_one r
    linarith
  · rw [abs_of_nonpos (sub_nonpos.mpr (Int.le_ceil r))]
    have h := Int.ceil_lt_add_one r
    linarith

theorem abs_jsRem_lt (x : ℝ) {y : ℝ} (hy : 0 < y) : |jsRem x y| < y := by
  have hy0 : y ≠ 0 := ne_of_gt hy
  have hxy : jsRem x y = y * (x / y - (truncInt (x / y) : ℝ)) := by
    unfold jsRem
    have hx : y * (x / y) = x := mul_div_cancel₀ x hy0
    rw [mul_sub, hx]
  rw [hxy, abs_mul, abs_of_pos hy]
  calc y * |x / y - (truncInt (x / y) : ℝ)| < y * 1 :=
        mul_lt_mul_of_pos_left (abs_sub_truncInt_lt_one (x / y)) hy
    _ = y := mul_one y

/-! ### Claim theorems -/

/-- C3: a `POSITIONS_UPDATE` chunk with `startIndex + count > MAX_SATELLITES`
is dropped with only a warning: the handler returns before any write, so
every position-buffer slot and the valid count are exactly as they were
before the message arrived. -/
theorem capacityViolation_dropped (earthPos : Vec3) (s : SatelliteBuffer)
    (m : PositionsUpdate) (h : m.startIndex + m.count > MAX_SATELLITES) :
    applyPositionsUpdate earthPos s m = s := by
  unfold applyPositionsUpdate
  rw [if_pos h]

/-- Witness for C3: a chunk at `startIndex = 20000` with one entry exceeds
the 20000-slot capacity and leaves a concrete buffer untouched. -/
theorem capacityViolation_dropped_witness :
    (20000 : ℕ) + 1 > MAX_SATELLITES ∧
      applyPositionsUpdate ((0 : ℝ), (0 : ℝ), (0 : ℝ))
        ⟨fun _ => ((0 : ℝ), (0 : ℝ), (0 : ℝ)), 0⟩
        ⟨20000, 1, fun _ => ((1 : ℝ), (2 : ℝ), (3 : ℝ))⟩ =
        ⟨fun _ => ((0 : ℝ), (0 : ℝ), (0 : ℝ)), 0⟩ :=
  ⟨by decide, capacityViolation_dropped _ _ _ (by decide)⟩

/-- C7: a `TRAJECTORY_DATA` reply whose satellite index matches neither the
current `selectedIndex` nor the current `highlightedIndex` is discarded: the
handler creates, removes and replaces nothing, leaving the trajectory state
unchanged. -/
theorem staleTrajectory_discarded (earthPos : Vec3) (s : TrajectoryState)
    (m : TrajectoryMessage) (hsel : m.satelliteIndex ≠ s.selectedIndex)
    (hhigh : m.satelliteIndex ≠ s.highlightedIndex) :
    handleTrajectoryData earthPos s m = s := by
  unfold handleTrajectoryData
  rw [if_neg hsel, if_neg hhigh]

/-- Witness for C7: a reply for index 5 arriving while index 7 is selected
and nothing is highlighted changes nothing. -/
theorem staleTrajectory_discarded_witness :
    (5 : ℤ) ≠ 7 ∧ (5 : ℤ) ≠ -1 ∧
      handleTrajectoryData ((0 : ℝ), (0 : ℝ), (0 : ℝ)) ⟨7, -1, none, none⟩
        ⟨5, [((1 : ℝ), (1 : ℝ), (1 : ℝ))]⟩ = ⟨7, -1, none, none⟩ :=
  ⟨by decide, by decide,
    staleTrajectory_discarded _ _ _ (by decide) (by decide)⟩

/-- C5: for every known planet and every elapsed time `t` (seconds since
J2000, positive or negative), the mean anomaly that `getPlanetPosition`
passes to the Kepler solver is `(M0 + n*t) % (2π)`: it differs from
`M0 + n*t` by an integer multiple of `2π` and its magnitude stays strictly
below `2π`, where `M0 = L - peri` and `n` is the code's mean motion. -/
theorem meanAnomaly_wraps (name : String) (el : Elem)
    (hl : planetElements name = some el) (t : ℝ) :
    (∃ k : ℤ, meanAnomalyAt el t =
      meanAnomaly0 el + meanMotion el * t - 2 * Real.pi * k) ∧
    |meanAnomalyAt el t| < 2 * Real.pi := by
  constructor
  · obtain ⟨k, hk⟩ :=
      jsRem_eq_sub_int_mul (meanAnomaly0 el + meanMotion el * t) (2 * Real.pi)
    exact ⟨k, by rw [meanAnomalyAt, hk]⟩
  · exact abs_jsRem_lt _ (by positivity)

/-- Witness for C5: Mars is a known planet, and at `t = 0` its mean anomaly
is congruent to `M0` and below `2π` in magnitude. -/
theorem meanAnomaly_wraps_witness :
    planetElements "mars" =
      some ⟨1.523662, 0.093412, 1.85061, -4.553432, -23.943629, 49.57854⟩ ∧
    ((∃ k : ℤ, meanAnomalyAt ⟨1.523662, 0.093412, 1.85061, -4.553432, -23.943629, 49.57854⟩ 0 =
        meanAnomaly0 ⟨1.523662, 0.093412, 1.85061, -4.553432, -23.943629, 49.57854⟩ +
          meanMotion ⟨1.523662, 0.093412, 1.85061, -4.553432, -23.943629, 49.57854⟩ * 0 -
          2 * Real.pi * k) ∧
      |meanAnomalyAt ⟨1.523662, 0.093412, 1.85061, -4.553432, -23.943629, 49.57854⟩ 0| <
        2 * Real.pi) :=
  ⟨rfl, meanAnomaly_wraps "mars" _ rfl 0⟩

theorem applyPositionsUpdate_of_le (earthPos : Vec3) (s : SatelliteBuffer)
    (m : PositionsUpdate) (h : ¬ m.startIndex + m.count > MAX_SATELLITES) :
    applyPositionsUpdate earthPos s m =
      { matrices := fun j =>
          if m.startIndex ≤ j ∧ j < m.startIndex + m.count then
            m.batchPositions (j - m.startIndex) + earthPos
          else s.matrices j
        validCount :=
          if m.startIndex + m.count > s.validCount then m.startIndex + m.count
          else s.validCount } := by
  unfold applyPositionsUpdate
  rw [if_neg h]

/-- C2: delivering the two chunk-result messages covering `[0, 500)` and
`[500, 750)` for the same time, in either order, yields the same final
buffer state; the valid count ends at 750, each slot in `[0, 500)` holds the
first chunk's entry (plus Earth's position) and each slot in `[500, 750)`
the second chunk's entry; and the valid count is computed from each chunk's
own `startIndex + count` and only ever moves forward. -/
theorem chunkDelivery_orderIndependent (earthPos : Vec3) (s : SatelliteBuffer)
    (A B : PositionsUpdate)
    (hA0 : A.startIndex = 0) (hA5 : A.count = 500)
    (hB0 : B.startIndex = 500) (hB5 : B.count = 250)
    (hs : s.validCount ≤ 750) :
    applyPositionsUpdate earthPos (applyPositionsUpdate earthPos s A) B =
      applyPositionsUpdate earthPos (applyPositionsUpdate earthPos s B) A ∧
    (applyPositionsUpdate earthPos (applyPositionsUpdate earthPos s A) B).validCount = 750 ∧
    (∀ j : ℕ, j < 500 →
      (applyPositionsUpdate earthPos (applyPositionsUpdate earthPos s A) B).matrices j =
        A.batchPositions j + earthPos) ∧
    (∀ j : ℕ, 500 ≤ j → j < 750 →
      (applyPositionsUpdate earthPos (applyPositionsUpdate earthPos s A) B).matrices j =
        B.batchPositions (j - 500) + earthPos) ∧
    (∀ (s2 : SatelliteBuffer) (m : PositionsUpdate),
      s2.validCount ≤ (applyPositionsUpdate earthPos s2 m).validCount ∧
        ((applyPositionsUpdate earthPos s2 m).validCount = s2.validCount ∨
          (applyPositionsUpdate earthPos s2 m).validCount = m.startIndex + m.count)) := by
  have hAle : ¬ A.startIndex + A.count > MAX_SATELLITES := by
    rw [hA0, hA5]; decide
  have hBle : ¬ B.startIndex + B.count > MAX_SATELLITES := by
    rw [hB0, hB5]; decide
  have hmono : ∀ (s2 : SatelliteBuffer) (m : PositionsUpdate),
      s2.validCount ≤ (applyPositionsUpdate earthPos s2 m).validCount ∧
        ((applyPositionsUpdate earthPos s2 m).validCount = s2.validCount ∨
          (applyPositionsUpdate earthPos s2 m).validCount = m.startIndex + m.count) := by
    intro s2 m
    unfold applyPositionsUpdate
    split
    · exact ⟨le_refl _, Or.inl rfl⟩
    · constructor
      · simp only
        split <;> omega
      · simp only
        split
        · exact Or.inr rfl
        · exact Or.inl rfl
  refine ⟨?_, ?_, ?_, ?_, hmono⟩
  · rw [applyPositionsUpdate_of_le earthPos s A hAle,
      applyPositionsUpdate_of_le earthPos s B hBle,
      applyPositionsUpdate_of_le earthPos _ B hBle,
      applyPositionsUpdate_of_le earthPos _ A hAle]
    refine SatelliteBuffer.ext_of (funext fun j => ?_) ?_
    · simp only [hA0, hA5, hB0, hB5]
      split_ifs <;> first | rfl | omega
    · simp only [hA0, hA5, hB0, hB5]
      split_ifs <;> omega
  · rw [applyPositionsUpdate_of_le earthPos s A hAle,
      applyPositionsUpdate_of_le earthPos _ B hBle]
    simp only [hA0, hA5, hB0, hB5]
    split_ifs <;> omega
  · intro j hj
    rw [applyPositionsUpdate_of_le earthPos s A hAle,
      applyPositionsUpdate_of_le earthPos _ B hBle]
    simp only [hA0, hA5, hB0, hB5]
    have h1 : ¬ (500 ≤ j ∧ j < 500 + 250) := by omega
    have h2 : 0 ≤ j ∧ j < 0 + 500 := by omega
    rw [if_neg h1, if_pos h2, Nat.sub_zero]
  · intro j hj1 hj2
    rw [applyPositionsUpdate_of_le earthPos s A hAle,
      applyPositionsUpdate_of_le earthPos _ B hBle]
    simp only [hA0, hA5, hB0, hB5]
    have h1 : 500 ≤ j ∧ j < 500 + 250 := by omega
    rw [if_pos h1]

/-- Witness for C2: two concrete chunks covering `[0, 500)` and `[500, 750)`
delivered to an empty buffer. -/
theorem chunkDelivery_orderIndependent_witness :
    (0 : ℕ) = 0 ∧ (500 : ℕ) = 500 ∧ (500 : ℕ) = 500 ∧ (250 : ℕ) = 250 ∧
      (0 : ℕ) ≤ 750 ∧
    (applyPositionsUpdate ((0 : ℝ), (0 : ℝ), (0 : ℝ))
        (applyPositionsUpdate ((0 : ℝ), (0 : ℝ), (0 : ℝ))
          ⟨fun _ => ((0 : ℝ), (0 : ℝ), (0 : ℝ)), 0⟩
          ⟨0, 500, fun _ => ((1 : ℝ), (0 : ℝ), (0 : ℝ))⟩)
        ⟨500, 250, fun _ => ((0 : ℝ), (1 : ℝ), (0 : ℝ))⟩).validCount = 750 :=
  ⟨rfl, rfl, rfl, rfl, by decide,
    (chunkDelivery_orderIndependent ((0 : ℝ), (0 : ℝ), (0 : ℝ))
      ⟨fun _ => ((0 : ℝ), (0 : ℝ), (0 : ℝ)), 0⟩
      ⟨0, 500, fun _ => ((1 : ℝ), (0 : ℝ), (0 : ℝ))⟩
      ⟨500, 250, fun _ => ((0 : ℝ), (1 : ℝ), (0 : ℝ))⟩
      rfl rfl rfl rfl (by decide)).2.1⟩

theorem targetAbsolutePosition_eq_of_ne_moon (b : Body) (t : ℝ)
    (hb : b ≠ Body.moon) : targetAbsolutePosition b t = bodyAbsolutePosition b t := by
  cases b <;> first | rfl | exact absurd rfl hb

/-- For the Sun and the nine planets the floating-origin invariant holds:
`setCameraTarget` and `updatePositions` compute the same absolute position,
so the focus body lands exactly at the origin.  The Moon is excluded: see
`moonFocus_displayPosition_ne_zero`. -/
theorem setFocus_displayPosition_zero_of_ne_moon (b : Body) (t : ℝ)
    (s : FocusState) (hb : b ≠ Body.moon) :
    displayPosition b t ((setCameraTarget b t s).1.sceneOffset) = 0 := by
  show bodyAbsolutePosition b t + -targetAbsolutePosition b t = 0
  rw [targetAbsolutePosition_eq_of_ne_moon b t hb, add_neg_cancel]

theorem rotatedNormSq (r cn sn cI sI cw sw cnu snu : ℝ)
    (hn : sn ^ 2 + cn ^ 2 = 1) (hI : sI ^ 2 + cI ^ 2 = 1)
    (hw : sw ^ 2 + cw ^ 2 = 1) (hnu : snu ^ 2 + cnu ^ 2 = 1) :
    (r * (cn * (cw * cnu - sw * snu) - sn * (sw * cnu + cw * snu) * cI)) ^ 2 +
    (r * (sn * (cw * cnu - sw * snu) + cn * (sw * cnu + cw * snu) * cI)) ^ 2 +
    (r * (sI * (sw * cnu + cw * snu))) ^ 2 = r ^ 2 := by
  linear_combination
    (r ^ 2 * ((cw * cnu - sw * snu) ^ 2 + (sw * cnu + cw * snu) ^ 2 * cI ^ 2)) * hn +
    (r ^ 2 * (sw * cnu + cw * snu) ^ 2) * hI +
    (r ^ 2 * (cw ^ 2 + sw ^ 2)) * hnu + r ^ 2 * hw

theorem rotatedVec_ne_zero (r cn sn cI sI cw sw cnu snu : ℝ) (hr : 0 < r)
    (hn : sn ^ 2 + cn ^ 2 = 1) (hI : sI ^ 2 + cI ^ 2 = 1)
    (hw : sw ^ 2 + cw ^ 2 = 1) (hnu : snu ^ 2 + cnu ^ 2 = 1) :
    ((r * (cn * (cw * cnu - sw * snu) - sn * (sw * cnu + cw * snu) * cI),
      r * (sI * (sw * cnu + cw * snu)),
      r * (sn * (cw * cnu - sw * snu) + cn * (sw * cnu + cw * snu) * cI)) : Vec3) ≠
      ((0 : ℝ), (0 : ℝ), (0 : ℝ)) := by
  intro h
  rw [Prod.mk.injEq, Prod.mk.injEq] at h
  obtain ⟨hX, hZ, hY⟩ := h
  have key := rotatedNormSq r cn sn cI sI cw sw cnu snu hn hI hw hnu
  rw [hX, hY, hZ] at key
  nlinarith [key, hr]

theorem radiusAt_pos (el : Elem) (t : ℝ) (ha : 0 < el.a) (he0 : 0 ≤ el.e)
    (he1 : el.e < 1) : 0 < radiusAt el t := by
  unfold radiusAt
  have hc : el.e * Real.cos (eccentricAnomalyAt el t) ≤ el.e * 1 :=
    mul_le_mul_of_nonneg_left (Real.cos_le_one _) he0
  nlinarith

/-- The rotated heliocentric position has norm `r = a*(1 - e*cos E)`, which
is positive whenever `0 < a` and `0 ≤ e < 1`, so the engine never returns
the zero vector for such elements. -/
theorem planetPositionFromElements_ne_zero (el : Elem) (t : ℝ)
    (ha : 0 < el.a) (he0 : 0 ≤ el.e) (he1 : el.e < 1) :
    planetPositionFromElements el t ≠ 0 := by
  have h := rotatedVec_ne_zero (radiusAt el t)
    (Real.cos (toRadians el.node)) (Real.sin (toRadians el.node))
    (Real.cos (toRadians el.I)) (Real.sin (toRadians el.I))
    (Real.cos (toRadians el.peri - toRadians el.node))
    (Real.sin (toRadians el.peri - toRadians el.node))
    (Real.cos (trueAnomalyAt el t)) (Real.sin (trueAnomalyAt el t))
    (radiusAt_pos el t ha he0 he1)
    (Real.sin_sq_add_cos_sq _) (Real.sin_sq_add_cos_sq _)
    (Real.sin_sq_add_cos_sq _) (Real.sin_sq_add_cos_sq _)
  intro h0
  exact h h0

theorem doubleScale_cancel (k : ℝ) (E G : Vec3)
    (h : smul3 k (smul3 k E + G) + -(smul3 k (E + G)) = 0)
    (hk : k ≠ 0) (hk1 : k ≠ 1) : E = 0 := by
  obtain ⟨x, y, z⟩ := E
  obtain ⟨gx, gy, gz⟩ := G
  simp only [smul3, Prod.mk_add_mk, Prod.neg_mk, Prod.mk_eq_zero] at h ⊢
  have hkk : k * (k - 1) ≠ 0 := mul_ne_zero hk (sub_ne_zero.mpr hk1)
  obtain ⟨h1, h2, h3⟩ := h
  refine ⟨?_, ?_, ?_⟩
  · have hx : k * (k - 1) * x = 0 := by linear_combination h1
    exact (mul_eq_zero.mp hx).resolve_left hkk
  · have hy : k * (k - 1) * y = 0 := by linear_combination h2
    exact (mul_eq_zero.mp hy).resolve_left hkk
  · have hz : k * (k - 1) * z = 0 := by linear_combination h3
    exact (mul_eq_zero.mp hz).resolve_left hkk

/-- The focus state at startup: offset at the origin, nothing selected or
highlighted, no records loaded, no markers, no trajectories. -/
def initialFocusState : FocusState :=
  { sceneOffset := ((0 : ℝ), (0 : ℝ), (0 : ℝ))
    selectedIndex := -1
    highlightedIndex := -1
    tleCount := 0
    highlightedMarker := none
    selectedMarker := none
    currentTrajectory := none
    selectedTrajectory := none }

/-- C8 fails on the code for the Moon: `multiplyScalar` mutates in place,
so `updatePositions` (main.js line 501 before line 511) places the Moon at
`sf^2*earthAU + sf*moonGeoAU` while `setCameraTarget` derives the offset
from `sf*(earthAU + moonGeoAU)`; after `setFocus(moon)` the display
position is `sf*(sf-1)*earthAU`, which is nonzero because Earth's
heliocentric distance `r = a*(1 - e*cos E)` is positive.  Evaluated here at
`t = 0` from the startup state. -/
theorem moonFocus_displayPosition_ne_zero :
    displayPosition Body.moon 0
      ((setCameraTarget Body.moon 0 initialFocusState).1.sceneOffset) ≠ 0 := by
  intro h
  have h2 : smul3 scaleFactor
      (smul3 scaleFactor (getPlanetPosition "earth" 0) + getMoonPosition 0) +
      -(smul3 scaleFactor (getPlanetPosition "earth" 0 + getMoonPosition 0)) = 0 := h
  have hsf0 : scaleFactor ≠ 0 := by
    unfold scaleFactor AU
    norm_num
  have hsf1 : scaleFactor ≠ 1 := by
    unfold scaleFactor AU
    norm_num
  have hE0 : getPlanetPosition "earth" 0 = 0 :=
    doubleScale_cancel scaleFactor (getPlanetPosition "earth" 0)
      (getMoonPosition 0) h2 hsf0 hsf1
  have heq : getPlanetPosition "earth" 0 =
      planetPositionFromElements
        ⟨1.000000, 0.016710, 0.00005, 100.46435, 102.94719, -11.26064⟩ 0 := rfl
  have hne : planetPositionFromElements
      ⟨1.000000, 0.016710, 0.00005, 100.46435, 102.94719, -11.26064⟩ 0 ≠ 0 :=
    planetPositionFromElements_ne_zero _ 0 (by norm_num) (by norm_num) (by norm_num)
  rw [heq] at hE0
  exact hne hE0

/-- A concrete focus state already centred on the Sun, with satellite 0
selected out of one loaded record and a visible hover trajectory. -/
def repeatedFocusState : FocusState :=
  { sceneOffset := ((0 : ℝ), (0 : ℝ), (0 : ℝ))
    selectedIndex := 0
    highlightedIndex := -1
    tleCount := 1
    highlightedMarker := none
    selectedMarker := none
    currentTrajectory := some [((1 : ℝ), (1 : ℝ), (1 : ℝ))]
    selectedTrajectory := none }

/-- Counterexample to C9: calling `setCameraTarget` again for the body that
is already the focus (the scene offset already equals the negated target
position) is not a no-op — it still issues a `CALCULATE_TRAJECTORY` request
for the selected satellite and clears the visible hover trajectory, because
the function never compares the requested target with the current one. -/
theorem repeatedSetFocus_not_noop :
    repeatedFocusState.sceneOffset = -targetAbsolutePosition Body.sun 0 ∧
    WorkerRequest.calculateTrajectory 0 ∈
      (setCameraTarget Body.sun 0 repeatedFocusState).2 ∧
    (setCameraTarget Body.sun 0 repeatedFocusState).1.currentTrajectory ≠
      repeatedFocusState.currentTrajectory := by
  refine ⟨?_, ?_, ?_⟩
  · simp [repeatedFocusState, targetAbsolutePosition, Prod.ext_iff]
  · simp [setCameraTarget, repeatedFocusState]
  · simp [setCameraTarget, repeatedFocusState]

/-- C9 amended: calling `setCameraTarget` a second time while the body is
already the focus target leaves the scene offset, both markers and every
display position unchanged (the offset delta is zero), but it still clears
both trajectory polylines and re-issues the selected satellite's trajectory
request (and the `CALCULATE_POSITIONS` request of `updatePositions`)
exactly as a focus change would. -/
theorem repeatedSetFocus_amended (b : Body) (t : ℝ) (s : FocusState)
    (h : s.sceneOffset = -targetAbsolutePosition b t) :
    (setCameraTarget b t s).1.sceneOffset = s.sceneOffset ∧
    (setCameraTarget b t s).1.highlightedMarker = s.highlightedMarker ∧
    (setCameraTarget b t s).1.selectedMarker = s.selectedMarker ∧
    (∀ b2 : Body, displayPosition b2 t ((setCameraTarget b t s).1.sceneOffset) =
      displayPosition b2 t s.sceneOffset) ∧
    (setCameraTarget b t s).1.currentTrajectory = none ∧
    (setCameraTarget b t s).1.selectedTrajectory = none ∧
    (setCameraTarget b t s).2 =
      (if s.selectedIndex ≠ -1 ∧ 0 ≤ s.selectedIndex ∧
          s.selectedIndex < (s.tleCount : ℤ) then
        [WorkerRequest.calculateTrajectory s.selectedIndex]
      else []) ++
      (if 0 < s.tleCount then [WorkerRequest.calculatePositions] else []) := by
  have hoff : (setCameraTarget b t s).1.sceneOffset = s.sceneOffset := by
    rw [h]; rfl
  have hdelta : -targetAbsolutePosition b t - s.sceneOffset = 0 := by
    rw [h, sub_self]
  refine ⟨hoff, ?_, ?_, fun b2 => by rw [hoff], rfl, rfl, rfl⟩
  · show s.highlightedMarker.map
        (fun p => p + (-targetAbsolutePosition b t - s.sceneOffset)) =
      s.highlightedMarker
    rw [hdelta]
    cases s.highlightedMarker <;> simp
  · show s.selectedMarker.map
        (fun p => p + (-targetAbsolutePosition b t - s.sceneOffset)) =
      s.selectedMarker
    rw [hdelta]
    cases s.selectedMarker <;> simp

/-- Witness for the amended C9: the already-focused concrete state above
keeps its offset but the hover trajectory is cleared. -/
theorem repeatedSetFocus_amended_witness :
    repeatedFocusState.sceneOffset = -targetAbsolutePosition Body.sun 0 ∧
    (setCameraTarget Body.sun 0 repeatedFocusState).1.sceneOffset =
      repeatedFocusState.sceneOffset ∧
    (setCameraTarget Body.sun 0 repeatedFocusState).1.currentTrajectory = none := by
  have h : repeatedFocusState.sceneOffset = -targetAbsolutePosition Body.sun 0 := by
    simp [repeatedFocusState, targetAbsolutePosition, Prod.ext_iff]
  have hr := repeatedSetFocus_amended Body.sun 0 repeatedFocusState h
  exact ⟨h, hr.1, hr.2.2.2.2.1⟩

/-- Counterexample to C4: for a body identifier absent from the
orbital-elements table, `getPlanetPosition` hands the caller the plain zero
vector — the returned `THREE.Vector3` is the caller's only channel, so no
lookup failure is reported distinctly; the failure is only logged to the
console. -/
theorem unknownBody_returnsZeroVector :
    planetElements "vulcan" = none ∧
      getPlanetPosition "vulcan" 0 = ((0 : ℝ), (0 : ℝ), (0 : ℝ)) :=
  ⟨rfl, rfl⟩

/-- C4 amended: for every body identifier not present in the
orbital-elements table (other than the `sun` and `moon` records, which hold
non-planet data), `getPlanetPosition` logs a console error and returns the
zero vector; the caller receives only that zero vector, with no distinct
failure signal. -/
theorem unknownBody_loggedZero (name : String) (t : ℝ)
    (h : planetElements name = none) (hs : name ≠ "sun") (hm : name ≠ "moon") :
    getPlanetPositionLogged name t = (true, ((0 : ℝ), (0 : ℝ), (0 : ℝ))) := by
  simp [getPlanetPositionLogged, h]

/-- Witness for the amended C4: the identifier `vulcan` is not in the table
and gets the logged zero-vector treatment. -/
theorem unknownBody_loggedZero_witness :
    planetElements "vulcan" = none ∧ "vulcan" ≠ "sun" ∧ "vulcan" ≠ "moon" ∧
      getPlanetPositionLogged "vulcan" 0 = (true, ((0 : ℝ), (0 : ℝ), (0 : ℝ))) :=
  ⟨rfl, by decide, by decide,
    unknownBody_loggedZero "vulcan" 0 rfl (by decide) (by decide)⟩

theorem calculateBatches_nil (i : ℕ) : calculateBatches [] i = [] := by
  unfold calculateBatches
  rfl

theorem calculateBatches_cons (a : PropagationOutcome)
    (l : List PropagationOutcome) (i : ℕ) :
    calculateBatches (a :: l) i =
      ⟨i, (((a :: l).take BATCH_SIZE).map calculateSatellitePosition).length,
        ((a :: l).take BATCH_SIZE).map calculateSatellitePosition⟩ ::
      calculateBatches ((a :: l).drop BATCH_SIZE) (i + BATCH_SIZE) := by
  conv_lhs => rw [calculateBatches]

theorem calculateBatches_mem_bounds (l : List PropagationOutcome) (i : ℕ) :
    ∀ c ∈ calculateBatches l i,
      i ≤ c.startIndex ∧ c.startIndex + c.count ≤ i + l.length ∧
        c.positions.length = c.count := by
  induction l, i using calculateBatches.induct with
  | case1 i =>
    intro c hc
    rw [calculateBatches_nil] at hc
    cases hc
  | case2 a l i ih =>
    intro c hc
    rw [calculateBatches_cons] at hc
    rcases List.mem_cons.mp hc with hc | hc
    · subst hc
      refine ⟨le_refl _, ?_, rfl⟩
      simp only [List.length_map, List.length_take, List.length_cons]
      omega
    · by_cases h5 : (a :: l).length ≤ BATCH_SIZE
      · rw [List.drop_eq_nil_of_le h5, calculateBatches_nil] at hc
        cases hc
      · have hb := ih c hc
        have hdl := List.length_drop BATCH_SIZE (a :: l)
        exact ⟨by omega, by omega, hb.2.2⟩

theorem calculateBatches_flatten (l : List PropagationOutcome) (i : ℕ) :
    ((calculateBatches l i).map PositionsChunk.positions).flatten =
      l.map calculateSatellitePosition := by
  induction l, i using calculateBatches.induct with
  | case1 i => rw [calculateBatches_nil]; rfl
  | case2 a l i ih =>
    rw [calculateBatches_cons]
    simp only [List.map_cons, List.flatten_cons, ih]
    rw [← List.map_append, List.take_append_drop]
    rfl

theorem calculateSatellitePosition_of_failure (r : PropagationOutcome)
    (hf : isPropagationFailure r = true) :
    calculateSatellitePosition r = ((0 : ℝ), (0 : ℝ), (0 : ℝ)) := by
  cases r <;> simp_all [isPropagationFailure, calculateSatellitePosition]

/-- C6: a record whose propagation fails (error-string result, missing
position, or a thrown exception, covering malformed element lines) gets the
sentinel origin written into its output slot, while the batch continues:
the concatenation of all emitted chunk payloads is the per-record
computation applied to every submitted record, and every chunk-result
message carries its full payload count. -/
theorem perRecordFailure_sentinel (l : List PropagationOutcome) (i : ℕ)
    (h : i < l.length) (hf : isPropagationFailure (l.get ⟨i, h⟩) = true) :
    (((calculatePositions l).map PositionsChunk.positions).flatten)[i]? =
      some ((0 : ℝ), (0 : ℝ), (0 : ℝ)) ∧
    ((calculatePositions l).map PositionsChunk.positions).flatten =
      l.map calculateSatellitePosition ∧
    (∀ c ∈ calculatePositions l, c.positions.length = c.count) := by
  have hfl := calculateBatches_flatten l 0
  refine ⟨?_, hfl, fun c hc => (calculateBatches_mem_bounds l 0 c hc).2.2⟩
  rw [calculatePositions, hfl, List.getElem?_map,
    List.getElem?_eq_getElem h]
  have hget : l[i] = l.get ⟨i, h⟩ := rfl
  have hz : calculateSatellitePosition l[i] = ((0 : ℝ), (0 : ℝ), (0 : ℝ)) := by
    rw [hget]
    exact calculateSatellitePosition_of_failure (l.get ⟨i, h⟩) hf
  simp [hz]

/-- Witness for C6: in a two-record batch whose second propagation throws,
the second output slot carries the origin sentinel. -/
theorem perRecordFailure_sentinel_witness :
    isPropagationFailure
      ([PropagationOutcome.ok ((1 : ℝ), (2 : ℝ), (3 : ℝ)),
        PropagationOutcome.thrown].get ⟨1, by decide⟩) = true ∧
    (((calculatePositions
        [PropagationOutcome.ok ((1 : ℝ), (2 : ℝ), (3 : ℝ)),
          PropagationOutcome.thrown]).map PositionsChunk.positions).flatten)[1]? =
      some ((0 : ℝ), (0 : ℝ), (0 : ℝ)) :=
  ⟨rfl,
    (perRecordFailure_sentinel
      [PropagationOutcome.ok ((1 : ℝ), (2 : ℝ), (3 : ℝ)),
        PropagationOutcome.thrown] 1 (by decide) rfl).1⟩

/-- C10: after the load-time truncation every submitted record list has
length at most `MAX_SATELLITES`, and every chunk the worker emits for it
satisfies `startIndex + count ≤ length` with a full payload, so the
main-thread capacity-violation drop branch can never fire for
worker-produced chunks. -/
theorem workerChunks_inCapacity (l : List PropagationOutcome)
    (c : PositionsChunk) (hc : c ∈ calculatePositions (truncateTleData l)) :
    (truncateTleData l).length ≤ MAX_SATELLITES ∧
    c.startIndex + c.count ≤ (truncateTleData l).length ∧
    c.positions.length = c.count ∧
    ¬ c.startIndex + c.count > MAX_SATELLITES := by
  have hlen : (truncateTleData l).length ≤ MAX_SATELLITES := by
    unfold truncateTleData
    split
    · simp only [List.length_take]
      omega
    · omega
  have hb := calculateBatches_mem_bounds (truncateTleData l) 0 c hc
  exact ⟨hlen, by omega, hb.2.2, by omega⟩

/-- Witness for C10: a one-record submission produces a single chunk
covering `[0, 1)`, within every bound. -/
theorem workerChunks_inCapacity_witness :
    (⟨0, 1, [((0 : ℝ), (0 : ℝ), (0 : ℝ))]⟩ : PositionsChunk) ∈
      calculatePositions (truncateTleData [PropagationOutcome.thrown]) ∧
    (0 : ℕ) + 1 ≤ (truncateTleData [PropagationOutcome.thrown]).length ∧
    ¬ (0 : ℕ) + 1 > MAX_SATELLITES := by
  have hmem : (⟨0, 1, [((0 : ℝ), (0 : ℝ), (0 : ℝ))]⟩ : PositionsChunk) ∈
      calculatePositions (truncateTleData [PropagationOutcome.thrown]) := by
    have ht : truncateTleData [PropagationOutcome.thrown] =
        [PropagationOutcome.thrown] := by
      unfold truncateTleData
      split
      · simp_all [MAX_SATELLITES]
      · rfl
    rw [ht, calculatePositions, calculateBatches_cons]
    simp [BATCH_SIZE, calculateBatches_nil, calculateSatellitePosition]
  have hr := workerChunks_inCapacity [PropagationOutcome.thrown] _ hmem
  exact ⟨hmem, hr.2.1, hr.2.2.2⟩

end Celestia
